import Mathlib

/-!
Shallow embedding of the ingestion-and-evaluation pipeline of
src/demoapp.py.

Strings are modelled as lists of characters.  Exception-raising remote
calls are modelled by Option-valued inputs (none = the call raised).
Wall-clock time is modelled by an integer-valued elapsed-time function
(in seconds) on tick indices; durations in the stats record and reported
progress fractions are rationals.
-/

namespace ZeroEntropyDemo

/-- Tests whether a string starts with a pattern (the primitive behind the
substring operations used by the program). -/
def startsWith : List Char → List Char → Bool
  | [], _ => true
  | _ :: _, [] => false
  | a :: pa, b :: sb => a == b && startsWith pa sb

/-- Tests whether a string ends with a suffix (Python str.endswith). -/
def endsWith (suf s : List Char) : Bool :=
  startsWith suf.reverse s.reverse

/-- Index of the first occurrence of a needle in a haystack, if any
(Python str.find, with none standing for -1). -/
def findSub (needle : List Char) : List Char → Option Nat
  | [] => if needle = [] then some 0 else none
  | c :: rest =>
    if startsWith needle (c :: rest) then some 0
    else (findSub needle rest).map (· + 1)

/-- Substring membership, Python needle in haystack on strings. -/
def isSubstr (needle haystack : List Char) : Bool :=
  (findSub needle haystack).isSome

/-- Python str.lower (ASCII fragment, which is all this program relies
on). -/
def toLowerStr (s : List Char) : List Char :=
  s.map Char.toLower

/-- Scanner for pyReplace: while skip is positive the characters of an
already-matched pattern occurrence are dropped; at skip zero a fresh match
of the pattern deletes it (consuming its first character here and setting
the counter for the rest), otherwise the character is kept. -/
def pyReplaceAux (pat : List Char) : Nat → List Char → List Char
  | _, [] => []
  | 0, c :: rest =>
    if 0 < pat.length ∧ startsWith pat (c :: rest) = true then
      pyReplaceAux pat (pat.length - 1) rest
    else
      c :: pyReplaceAux pat 0 rest
  | skip + 1, _ :: rest => pyReplaceAux pat skip rest

/-- Python str.replace(pat, "") for a non-empty pat: removes every
occurrence of pat, scanning left to right (non-overlapping).  For an empty
pat this is the identity (the program only uses the patterns ".txt" and
".json"). -/
def pyReplace (pat s : List Char) : List Char :=
  pyReplaceAux pat 0 s

/-- Python whitespace characters stripped by str.strip() (ASCII
fragment). -/
def isPyWhitespace (c : Char) : Bool :=
  c == ' ' || c == '\t' || c == '\n' || c == '\r' || c == '\x0b' || c == '\x0c'

/-- Truthiness of content.strip() in Python: true iff some character of
the content is not whitespace. -/
def pyTruthyStrip (content : List Char) : Bool :=
  content.any (fun c => !isPyWhitespace c)

/-! ## download_corpus (demoapp.py lines 59-92)

An extracted archive is modelled as the list of files produced by the
os.walk traversal, in traversal order.  A file whose bytes fail to decode
as UTF-8 (the exception path of the open/read inside the try) is modelled
with data = none. -/

/-- One file seen by the os.walk loop of download_corpus: its filename
(the file loop variable) and its decoded content (none = the read raised,
e.g. a UTF-8 decode failure). -/
structure AFile where
  name : List Char
  data : Option (List Char)
deriving DecidableEq, Repr

/-- A document as built by download_corpus (the dict passed to
documents.append). -/
structure Document where
  id : List Char
  content : List Char
  filename : List Char
  corpus_name : List Char
deriving DecidableEq, Repr

/-- The extension filter of line 74, file.endswith((".txt", ".json")). -/
def includedFile (name : List Char) : Bool :=
  endsWith (".txt".data) name || endsWith (".json".data) name

/-- The name mangling of line 82,
file.replace(".txt", "").replace(".json", ""): removes every occurrence of
".txt" and then every occurrence of ".json". -/
def stripExtTokens (name : List Char) : List Char :=
  pyReplace (".json".data) (pyReplace (".txt".data) name)

/-- The document id built on line 82: the corpus name, an underscore, and
the mangled filename. -/
def docId (corpus name : List Char) : List Char :=
  corpus ++ '_' :: stripExtTokens name

/-- The document record appended on lines 80-88 (for a file whose content
was read successfully). -/
def mkDocument (corpus : List Char) (f : AFile) : Document :=
  { id := docId corpus f.name
    content := f.data.getD []
    filename := f.name
    corpus_name := corpus }

/-- One step of the file loop of download_corpus (lines 73-90), acting on
the accumulator (documents so far, warnings so far): a file passing the
extension filter whose content reads and strips truthy is appended; a file
whose read raises adds one st.warning (line 90); an empty-after-strip file
is skipped with no warning; an excluded file is ignored. -/
def downloadStep (corpus : List Char) (acc : List Document × Nat)
    (f : AFile) : List Document × Nat :=
  if includedFile f.name then
    match f.data with
    | some content =>
      if pyTruthyStrip content then
        (acc.1 ++ [mkDocument corpus ⟨f.name, some content⟩], acc.2)
      else
        acc
    | none => (acc.1, acc.2 + 1)
  else
    acc

/-- The pure extraction core of download_corpus (lines 59-92): folds the
file loop over the extracted files in traversal order, returning the
document list and the number of warnings recorded. -/
def download_corpus (corpus : List Char) (files : List AFile) :
    List Document × Nat :=
  files.foldl (downloadStep corpus) ([], 0)

/-- A file that download_corpus keeps (appends to documents). -/
def keepFile (f : AFile) : Bool :=
  includedFile f.name &&
    (match f.data with
     | some content => pyTruthyStrip content
     | none => false)

/-- A file whose read raises, producing an st.warning (line 90). -/
def warnFile (f : AFile) : Bool :=
  includedFile f.name && f.data.isNone

/-- Modelled from the spec: basename without extension, i.e. the filename
with its final dot-extension removed (everything from the last dot on is
dropped), or the filename itself when it has no dot.  Declared only to
compare the id formula stated by the spec with the one in the code. -/
def basenameNoExt (name : List Char) : List Char :=
  match name.reverse.dropWhile (fun c => !(c == '.')) with
  | [] => name
  | _ :: rest => rest.reverse

/-- Modelled from the spec: the id formula of the spec, corpus name,
underscore, basename without extension. -/
def specIdOfFile (corpus name : List Char) : List Char :=
  corpus ++ '_' :: basenameNoExt name

/-! ## The upload loop (demoapp.py lines 431-456) -/

/-- The conflict test of lines 448-452: an exception message is treated as
a duplicate-submission conflict iff it contains "409" or its lowering
contains "already exists". -/
def is_conflict_error (msg : List Char) : Bool :=
  isSubstr ("409".data) msg || isSubstr ("already exists".data) (toLowerStr msg)

/-- The per-document submission outcome observed by the upload loop: none
means documents.add returned normally; some msg means it raised an
exception whose message is msg. -/
abbrev SubmitOutcome := Option (List Char)

/-- The counter update of one iteration of the upload loop (lines
439-454): a fresh success increments successful_docs; an exception
increments failed_docs only when it is not conflict-like; a conflict-like
exception increments neither counter. -/
def uploadStep (acc : Nat × Nat) (o : SubmitOutcome) : Nat × Nat :=
  match o with
  | none => (acc.1 + 1, acc.2)
  | some e => if is_conflict_error e then acc else (acc.1, acc.2 + 1)

/-- The counters (successful_docs, failed_docs) produced by the upload
loop on a catalog whose per-document submission outcomes are given. -/
def uploadCounts (outcomes : List SubmitOutcome) : Nat × Nat :=
  outcomes.foldl uploadStep (0, 0)

/-- An outcome that increments successful_docs. -/
def isFreshSuccess (o : SubmitOutcome) : Bool :=
  o.isNone

/-- An outcome that increments failed_docs. -/
def isCountedFailure (o : SubmitOutcome) : Bool :=
  match o with
  | none => false
  | some e => !is_conflict_error e

/-! ## check_corpus_indexed (demoapp.py lines 106-123) -/

/-- One entry of the document list consumed by check_corpus_indexed: only
its index_status field is read. -/
structure DocInfo where
  index_status : List Char
deriving DecidableEq, Repr

/-- check_corpus_indexed (lines 106-123).  The status query
documents.get_info_list is modelled by its result: some docs when it
returns the document list, none when it raises; the try/except of the
function turns any raise into a warning plus (False, 0, 0). -/
def check_corpus_indexed (queryResult : Option (List DocInfo)) :
    Bool × Nat × Nat :=
  match queryResult with
  | some docs =>
    let total_docs := docs.length
    let indexed_docs :=
      (docs.filter (fun d => d.index_status = ("indexed".data))).length
    (decide (total_docs > 0), indexed_docs, total_docs)
  | none => (false, 0, 0)

/-- Test fixture: a status-query result with i documents reported indexed
and (for i at most t) t documents in total. -/
def mkDocs (i t : Nat) : List DocInfo :=
  List.replicate i ⟨"indexed".data⟩ ++ List.replicate (t - i) ⟨"pending".data⟩

/-! ## highlight_answer_in_content (demoapp.py lines 126-138) and the
result-annotation loop of the query step (lines 785-795) -/

/-- The opening HTML of the highlight tag inserted on line 134. -/
def markOpen : List Char :=
  ("<mark style=\"background-color: #90EE90; font-weight: bold;\">".data)

/-- The closing HTML of the highlight tag. -/
def markClose : List Char :=
  ("</mark>".data)

/-- highlight_answer_in_content (lines 126-138): if the answer occurs
case-insensitively in the content, wrap the first occurrence in a mark
tag; otherwise return the content unchanged. -/
def highlight_answer_in_content (content expected_answer : List Char) :
    List Char :=
  if isSubstr (toLowerStr expected_answer) (toLowerStr content) then
    match findSub (toLowerStr expected_answer) (toLowerStr content) with
    | some start_idx =>
      content.take start_idx ++ markOpen
        ++ (content.drop start_idx).take expected_answer.length
        ++ markClose
        ++ content.drop (start_idx + expected_answer.length)
    | none => content
  else content

/-- One step of the per-result annotation loop of lines 787-795: an answer
that occurs case-insensitively in the ORIGINAL content is appended to
found_answers and the progressively annotated string is re-highlighted
with it; other answers leave the accumulator unchanged. -/
def annotateStep (content : List Char) (acc : List Char × List (List Char))
    (answer : List Char) : List Char × List (List Char) :=
  if isSubstr (toLowerStr answer) (toLowerStr content) then
    (highlight_answer_in_content acc.1 answer, acc.2 ++ [answer])
  else acc

/-- The per-result annotation loop of lines 785-795: starting from the raw
content, fold over the expected answers; returns the final
(highlighted_content, found_answers). -/
def processResult (expected_answers : List (List Char))
    (content : List Char) : List Char × List (List Char) :=
  expected_answers.foldl (annotateStep content) (content, [])

/-! ## The convergence performance stats (demoapp.py lines 497-515) -/

/-- The performance_stats record built on lines 508-515. -/
structure PerformanceStats where
  total_time : ℚ
  download_time : ℚ
  upload_time : ℚ
  indexing_time : ℚ
  total_count : Nat
  total_tokens : Nat
deriving DecidableEq, Repr

/-- The stats assembly at convergence (lines 497-515): indexing_time is
computed on lines 498-500 as total_time - download_time - upload_time and
stored as-is. -/
def mkPerformanceStats (download_time upload_time total_time : ℚ)
    (total_count total_tokens : Nat) : PerformanceStats :=
  { total_time := total_time
    download_time := download_time
    upload_time := upload_time
    indexing_time := total_time - download_time - upload_time
    total_count := total_count
    total_tokens := total_tokens }

/-! ## The convergence poll loop (demoapp.py lines 475-538)

The while-True loop is modelled as a tick function plus a fuel-indexed
runner.  Tick k (k = 0, 1, ...) observes elapsed wall time (seconds since
monitoring_start_time) and the status-query result (none = the remote
query raised inside check_corpus_indexed).  Because the loop body ends in
time.sleep(check_interval), any real execution satisfies
k * check_interval <= elapsed k. -/

/-- What a tick that keeps polling displays (lines 521-531). -/
inductive TickReport where
  | progress (indexed total : Nat)
  | waitingForVisibility
deriving DecidableEq, Repr

/-- The outcome of one iteration of the while-True loop body. -/
inductive PollTickResult where
  | timedOut
  | converged (total : Nat)
  | continuePolling (report : TickReport)
deriving DecidableEq, Repr

/-- One iteration of the loop body (lines 478-538), in source order: first
the timeout check (lines 481-486, breaking when elapsed exceeds
max_wait_time), then the status check via check_corpus_indexed (which
never raises, because it catches internally, so the except-break of lines
533-536 is unreachable from a failing status query), then the convergence
test of line 496 (indexed_count equals total_count and total_count is
positive), else a progress or waiting report (lines 521-531). -/
def pollTick (max_wait_time elapsed : ℤ)
    (queryResult : Option (List DocInfo)) : PollTickResult :=
  if max_wait_time < elapsed then
    .timedOut
  else
    let r := check_corpus_indexed queryResult
    let indexed_count := r.2.1
    let total_count := r.2.2
    if indexed_count = total_count ∧ 0 < total_count then
      .converged total_count
    else if 0 < total_count then
      .continuePolling (.progress indexed_count total_count)
    else
      .continuePolling .waitingForVisibility

/-- Final outcome of a fuel-bounded run of the poll loop. -/
inductive PollOutcome where
  | converged (ticksUsed total : Nat)
  | timedOut (ticksUsed : Nat)
  | stillPolling
deriving DecidableEq, Repr

/-- Runs the poll loop from tick k for at most fuel ticks.  The value
stillPolling means the fuel ran out with the loop still going (the real
loop has no such bound; the theorems below show that enough fuel always
reaches a terminal outcome). -/
def pollRunAux (max_wait_time : ℤ) (elapsed : Nat → ℤ)
    (query : Nat → Option (List DocInfo)) : Nat → Nat → PollOutcome
  | 0, _ => .stillPolling
  | fuel + 1, k =>
    match pollTick max_wait_time (elapsed k) (query k) with
    | .timedOut => .timedOut k
    | .converged t => .converged k t
    | .continuePolling _ => pollRunAux max_wait_time elapsed query fuel (k + 1)

/-- The sequence of reports displayed by the non-terminal ticks of the
poll loop, starting at tick k, for at most fuel ticks. -/
def pollReports (max_wait_time : ℤ) (elapsed : Nat → ℤ)
    (query : Nat → Option (List DocInfo)) : Nat → Nat → List TickReport
  | 0, _ => []
  | fuel + 1, k =>
    match pollTick max_wait_time (elapsed k) (query k) with
    | .timedOut => []
    | .converged _ => []
    | .continuePolling r =>
      r :: pollReports max_wait_time elapsed query fuel (k + 1)

/-- The progress fraction a report displays (line 523, indexed_count
divided by total_count); a waiting report shows no fraction (taken as
zero). -/
def reportFrac : TickReport → ℚ
  | .progress i t => (i : ℚ) / (t : ℚ)
  | .waitingForVisibility => 0

/-- Concrete exception message used as a duplicate-conflict response in
counterexamples and witnesses. -/
def conflictMsg : List Char :=
  ("Error code: 409 - document already exists".data)

/-- Concrete archive with two files whose mangled names coincide. -/
def dupFiles : List AFile :=
  [⟨"x.txt".data, some ("hi".data)⟩, ⟨"x.json".data, some ("yo".data)⟩]

/-- Concrete snapshot sequence of a converging run whose reported progress
dips: five of ten indexed, then three of ten, then all ten. -/
def dipQuery (k : Nat) : Option (List DocInfo) :=
  if k = 0 then some (mkDocs 5 10)
  else if k = 1 then some (mkDocs 3 10)
  else if k = 2 then some (mkDocs 10 10)
  else none

/-! ## Structural lemmas -/

/-- The file loop of download_corpus, from any accumulator, appends the
documents of the kept files and adds one warning per raising file. -/
lemma download_foldl (corpus : List Char) :
    ∀ (files : List AFile) (ds : List Document) (n : Nat),
      files.foldl (downloadStep corpus) (ds, n)
        = (ds ++ (files.filter keepFile).map (mkDocument corpus),
           n + (files.filter warnFile).length) := by
  intro files
  induction files with
  | nil => intro ds n; simp
  | cons f fs ih =>
    intro ds n
    obtain ⟨nm, dt⟩ := f
    by_cases hinc : includedFile nm = true
    · cases dt with
      | some c =>
        by_cases htr : pyTruthyStrip c = true
        · simp only [List.foldl_cons, downloadStep, hinc, if_true, htr, ih,
            List.filter_cons, keepFile, warnFile]
          simp [htr, hinc, List.append_assoc]
        · simp only [List.foldl_cons, downloadStep, hinc, if_true, htr, ih,
            List.filter_cons, keepFile, warnFile]
          simp [htr, hinc]
      | none =>
        simp only [List.foldl_cons, downloadStep, hinc, if_true, ih,
          List.filter_cons, keepFile, warnFile]
        simp only [hinc, Option.isNone_some, Option.isNone_none]
        simp
        omega
    · simp only [List.foldl_cons, downloadStep, hinc, ih, List.filter_cons,
        keepFile, warnFile]
      simp [hinc]

/-- Closed form of download_corpus: the kept files in order, and the
number of raising files. -/
lemma download_corpus_eq (corpus : List Char) (files : List AFile) :
    download_corpus corpus files
      = ((files.filter keepFile).map (mkDocument corpus),
         (files.filter warnFile).length) := by
  have h := download_foldl corpus files [] 0
  simpa [download_corpus] using h

/-- The upload loop, from any counter pair, adds the number of fresh
successes to the first counter and the number of non-conflict exceptions
to the second. -/
lemma upload_foldl :
    ∀ (outcomes : List SubmitOutcome) (a b : Nat),
      outcomes.foldl uploadStep (a, b)
        = (a + outcomes.countP isFreshSuccess,
           b + outcomes.countP isCountedFailure) := by
  intro outcomes
  induction outcomes with
  | nil => intro a b; simp
  | cons o os ih =>
    intro a b
    cases o with
    | none =>
      simp only [List.foldl_cons, uploadStep, ih, List.countP_cons]
      simp [isFreshSuccess, isCountedFailure]
      omega
    | some e =>
      by_cases hc : is_conflict_error e = true
      · simp only [List.foldl_cons, uploadStep, hc, if_true, ih,
          List.countP_cons]
        simp [isFreshSuccess, isCountedFailure, hc]
      · simp only [List.foldl_cons, uploadStep, hc, if_false, ih,
          List.countP_cons]
        simp [isFreshSuccess, isCountedFailure, hc]
        omega

/-- Closed form of the upload counters. -/
lemma uploadCounts_eq (outcomes : List SubmitOutcome) :
    uploadCounts outcomes
      = (outcomes.countP isFreshSuccess, outcomes.countP isCountedFailure) := by
  have h := upload_foldl outcomes 0 0
  simpa [uploadCounts] using h

/-- Value of check_corpus_indexed on the mkDocs fixture. -/
lemma check_mkDocs (i t : Nat) (h : i ≤ t) :
    check_corpus_indexed (some (mkDocs i t)) = (decide (0 < t), i, t) := by
  simp only [check_corpus_indexed, mkDocs, List.filter_append,
    List.filter_replicate]
  rw [if_pos (by decide), if_neg (by decide)]
  simp only [List.length_append, List.length_replicate, List.length_nil,
    Nat.add_zero]
  rw [Nat.add_sub_cancel' h]

/-- A tick past the deadline times out regardless of the query result. -/
lemma pollTick_timeout (max_wait_time elapsed : ℤ)
    (queryResult : Option (List DocInfo)) (h : max_wait_time < elapsed) :
    pollTick max_wait_time elapsed queryResult = .timedOut := by
  simp [pollTick, h]

/-- A tick at or before the deadline whose status query fails keeps
polling with a waiting report: check_corpus_indexed swallows the failure
into (false, 0, 0). -/
lemma pollTick_queryFailure (max_wait_time elapsed : ℤ)
    (h : ¬ max_wait_time < elapsed) :
    pollTick max_wait_time elapsed none
      = .continuePolling .waitingForVisibility := by
  simp [pollTick, h, check_corpus_indexed]

/-- Within any window of ticks that starts no later than tick B and
extends past tick B, the poll loop reaches a terminal outcome, provided
the elapsed clock has passed the deadline by tick B. -/
lemma pollRunAux_terminates (max_wait_time : ℤ) (elapsed : Nat → ℤ)
    (query : Nat → Option (List DocInfo)) (B : Nat)
    (hB : max_wait_time < elapsed B) :
    ∀ fuel k, k ≤ B → B < k + fuel →
      pollRunAux max_wait_time elapsed query fuel k ≠ .stillPolling := by
  intro fuel
  induction fuel with
  | zero => intro k hk hlt; omega
  | succ n ih =>
    intro k hk hlt
    rcases Nat.eq_or_lt_of_le hk with hkB | hkB
    · subst hkB
      simp [pollRunAux, pollTick_timeout _ _ _ hB]
    · simp only [pollRunAux]
      rcases hpt : pollTick max_wait_time (elapsed k) (query k) with _ | t | r
      · simp
      · simp
      · exact ih (k + 1) hkB (by omega)

/-- With every status query failing, the poll loop never converges: any
fuel-bounded run is still polling or has timed out. -/
lemma pollRunAux_const_none (max_wait_time : ℤ) (elapsed : Nat → ℤ) :
    ∀ fuel k,
      pollRunAux max_wait_time elapsed (fun _ => none) fuel k = .stillPolling
      ∨ ∃ j, pollRunAux max_wait_time elapsed (fun _ => none) fuel k
              = .timedOut j := by
  intro fuel
  induction fuel with
  | zero => intro k; left; rfl
  | succ n ih =>
    intro k
    by_cases h : max_wait_time < elapsed k
    · right
      exact ⟨k, by simp [pollRunAux, pollTick_timeout _ _ _ h]⟩
    · simp only [pollRunAux, pollTick_queryFailure _ _ h]
      exact ih (k + 1)

/-- Value of a pre-deadline tick on a fixture snapshot with i of t
documents indexed. -/
lemma pollTick_mkDocs (max_wait_time elapsed : ℤ) (i t : Nat)
    (hi : i ≤ t) (ht : 0 < t) (h : ¬ max_wait_time < elapsed) :
    pollTick max_wait_time elapsed (some (mkDocs i t))
      = if i = t then .converged t
        else .continuePolling (.progress i t) := by
  simp only [pollTick, h, if_false, check_mkDocs i t hi]
  by_cases hit : i = t
  · simp [hit, ht]
  · simp [hit, ht]

/-- The first report of a report sequence driven by fixture snapshots with
a fixed total is the progress report of its first tick. -/
lemma pollReports_head (max_wait_time : ℤ) (elapsed : Nat → ℤ)
    (f : Nat → Nat) (T : Nat) (hf : ∀ k, f k ≤ T) (hT : 0 < T) :
    ∀ fuel k r,
      (pollReports max_wait_time elapsed
          (fun j => some (mkDocs (f j) T)) fuel k).head? = some r →
      r = .progress (f k) T := by
  intro fuel
  cases fuel with
  | zero => intro k r hr; simp [pollReports] at hr
  | succ n =>
    intro k r hr
    by_cases hto : max_wait_time < elapsed k
    · simp [pollReports, pollTick_timeout _ _ _ hto] at hr
    · simp only [pollReports, pollTick_mkDocs _ _ (f k) T (hf k) hT hto] at hr
      by_cases hit : f k = T
      · simp [hit] at hr
      · simp only [hit, if_false, List.head?_cons, Option.some.injEq] at hr
        exact hr.symm

/-- Driven by fixture snapshots with a fixed positive total and a
non-decreasing indexed count, the report sequence of the poll loop has
non-decreasing progress fractions. -/
lemma pollReports_chain (max_wait_time : ℤ) (elapsed : Nat → ℤ)
    (f : Nat → Nat) (T : Nat) (hf : ∀ k, f k ≤ T) (hT : 0 < T)
    (hmono : ∀ k, f k ≤ f (k + 1)) :
    ∀ fuel k,
      List.Chain' (fun r r2 => reportFrac r ≤ reportFrac r2)
        (pollReports max_wait_time elapsed
          (fun j => some (mkDocs (f j) T)) fuel k) := by
  intro fuel
  induction fuel with
  | zero => intro k; simp [pollReports]
  | succ n ih =>
    intro k
    by_cases hto : max_wait_time < elapsed k
    · simp [pollReports, pollTick_timeout _ _ _ hto]
    · simp only [pollReports, pollTick_mkDocs _ _ (f k) T (hf k) hT hto]
      by_cases hit : f k = T
      · simp [hit]
      · simp only [hit, if_false]
        rw [List.chain'_cons']
        refine ⟨?_, ih (k + 1)⟩
        intro b hb
        have hb2 := pollReports_head max_wait_time elapsed f T hf hT n (k + 1) b
          (Option.mem_def.mp hb)
        subst hb2
        simp only [reportFrac]
        have hT2 : (0 : ℚ) < (T : ℚ) := by exact_mod_cast hT
        exact (div_le_div_iff_of_pos_right hT2).mpr (by exact_mod_cast hmono k)

/-- Membership in the found-answers list is preserved by the rest of the
annotation loop. -/
lemma annotate_foldl_mem_preserved (content : List Char) :
    ∀ (answers : List (List Char)) (acc : List Char × List (List Char))
      (x : List Char),
      x ∈ acc.2 → x ∈ (answers.foldl (annotateStep content) acc).2 := by
  intro answers
  induction answers with
  | nil => intro acc x hx; simpa using hx
  | cons a rest ih =>
    intro acc x hx
    simp only [List.foldl_cons]
    apply ih
    simp only [annotateStep]
    by_cases hc : isSubstr (toLowerStr a) (toLowerStr content) = true
    · simp [hc, hx]
    · simpa [hc] using hx

/-- Every expected answer occurring case-insensitively in the original
content ends up in the found-answers list of the annotation loop. -/
lemma annotate_foldl_mem (content : List Char) :
    ∀ (answers : List (List Char)) (acc : List Char × List (List Char))
      (a : List Char),
      a ∈ answers → isSubstr (toLowerStr a) (toLowerStr content) = true →
      a ∈ (answers.foldl (annotateStep content) acc).2 := by
  intro answers
  induction answers with
  | nil => intro acc a ha; simp at ha
  | cons b rest ih =>
    intro acc a ha hocc
    simp only [List.foldl_cons]
    rcases List.mem_cons.mp ha with rfl | ha2
    · apply annotate_foldl_mem_preserved
      simp [annotateStep, hocc]
    · exact ih _ a ha2 hocc

/-- When the answer occurs case-insensitively in the current string,
highlighting wraps the first occurrence in the mark tag. -/
lemma highlight_shape (current a : List Char)
    (hocc : isSubstr (toLowerStr a) (toLowerStr current) = true) :
    ∃ s, findSub (toLowerStr a) (toLowerStr current) = some s ∧
      highlight_answer_in_content current a
        = current.take s ++ markOpen ++ (current.drop s).take a.length
            ++ markClose ++ current.drop (s + a.length) := by
  rcases ho : findSub (toLowerStr a) (toLowerStr current) with _ | s
  · exact absurd hocc (by simp [isSubstr, ho])
  · exact ⟨s, rfl, by simp [highlight_answer_in_content, hocc, ho]⟩

/-! ## Claim theorems -/

/-- C1 (counterexample): in the scenario of the claim, an upload of three
documents where two succeed fresh and one returns a duplicate-conflict
response, the summary is succeeded = 2 and failed = 0 — the conflict is
not counted as a success, so succeeded is not the catalog size 3. -/
theorem C1_counterexample_conflict_not_counted_as_success :
    is_conflict_error conflictMsg = true ∧
    uploadCounts [none, none, some conflictMsg] = (2, 0) ∧
    (uploadCounts [none, none, some conflictMsg]).1 ≠ 3 := by
  refine ⟨by decide, by decide, by decide⟩

/-- C1 (amended): when every submission either succeeds fresh or raises a
conflict-like error, the upload loop reports failed = 0 and succeeded
equal to the number of fresh successes (conflicts increment neither
counter). -/
theorem C1_amended_conflicts_increment_neither_counter
    (outcomes : List SubmitOutcome)
    (h : ∀ o ∈ outcomes, isCountedFailure o = false) :
    uploadCounts outcomes = (outcomes.countP isFreshSuccess, 0) := by
  rw [uploadCounts_eq]
  have hz : outcomes.countP isCountedFailure = 0 :=
    List.countP_eq_zero.mpr (fun o ho => by simp [h o ho])
  rw [hz]

/-- C1 (witness): the amended theorem applied to a concrete upload with
two fresh successes and one conflict. -/
theorem C1_witness_concrete_upload :
    uploadCounts [none, some conflictMsg, none] = (2, 0) :=
  (C1_amended_conflicts_increment_neither_counter
      [none, some conflictMsg, none] (by decide)).trans (by decide)

/-- C2 (counterexample): a tick whose status query fails does not reach a
terminal state: at elapsed 0 the poller keeps polling with a waiting
report, and a run whose status queries all fail ends in TimedOut at tick
121, not in an error state on the failing tick. -/
theorem C2_counterexample_failed_query_keeps_polling :
    pollTick 600 0 none = .continuePolling .waitingForVisibility ∧
    pollRunAux 600 (fun k => (k : ℤ) * 5) (fun _ => none) 122 0
      = .timedOut 121 := by
  refine ⟨by decide, by decide⟩

/-- C2 (amended): a failing status query is swallowed by
check_corpus_indexed, which returns (false, 0, 0) after warning; a
pre-deadline tick with a failed query therefore remains in Polling with a
waiting report, and a run whose status queries keep failing terminates as
TimedOut, never as an error state. -/
theorem C2_amended_query_failure_swallowed_not_errored
    (max_wait_time check_interval : ℤ) (elapsed : Nat → ℤ) (B : Nat)
    (hElapsed : ∀ k : Nat, (k : ℤ) * check_interval ≤ elapsed k)
    (hB : max_wait_time < (B : ℤ) * check_interval) :
    (∀ e : ℤ, ¬ max_wait_time < e →
       pollTick max_wait_time e none
         = .continuePolling .waitingForVisibility) ∧
    check_corpus_indexed none = (false, 0, 0) ∧
    ∃ j, pollRunAux max_wait_time elapsed (fun _ => none) (B + 1) 0
          = .timedOut j := by
  refine ⟨fun e he => pollTick_queryFailure _ _ he, rfl, ?_⟩
  have hEB : max_wait_time < elapsed B := lt_of_lt_of_le hB (hElapsed B)
  rcases pollRunAux_const_none max_wait_time elapsed (B + 1) 0 with hs | hj
  · exact absurd hs
      (pollRunAux_terminates _ _ _ B hEB (B + 1) 0 (Nat.zero_le B) (by omega))
  · exact hj

/-- C2 (witness): the amended theorem at the concrete configuration of
the program, max wait 600 and interval 5. -/
theorem C2_witness_concrete_run :
    pollTick 600 0 none = .continuePolling .waitingForVisibility ∧
    check_corpus_indexed none = (false, 0, 0) ∧
    ∃ j, pollRunAux 600 (fun k => (k : ℤ) * 5) (fun _ => none) 122 0
          = .timedOut j := by
  have h := C2_amended_query_failure_swallowed_not_errored 600 5
    (fun k => (k : ℤ) * 5) 121 (fun k => le_refl _) (by decide)
  exact ⟨h.1 0 (by decide), h.2.1, h.2.2⟩

/-- C3 (counterexample): an archive holding x.txt and x.json yields two
documents with the same id c_x, so ids are not pairwise distinct; and on
the file a.json.txt the id built by the code differs from the corpus name
plus underscore plus basename-without-extension stated by the claim. -/
theorem C3_counterexample_colliding_and_mangled_ids :
    ((download_corpus ("c".data) dupFiles).1.map Document.id)
      = [("c_x".data), ("c_x".data)] ∧
    ¬ ((download_corpus ("c".data) dupFiles).1.map Document.id).Nodup ∧
    docId ("c".data) ("a.json.txt".data)
      ≠ specIdOfFile ("c".data) ("a.json.txt".data) := by
  refine ⟨by decide, by decide, by decide⟩

/-- C3 (amended): every extracted document id equals the corpus name, an
underscore, and the filename with every occurrence of ".txt" and then
".json" removed; and the ids are pairwise distinct whenever those
stripped filenames of the kept files are pairwise distinct. -/
theorem C3_amended_ids_deterministic_distinct_under_nodup
    (corpus : List Char) (files : List AFile)
    (hNodup : ((files.filter keepFile).map
        (fun f => stripExtTokens f.name)).Nodup) :
    (∀ d ∈ (download_corpus corpus files).1,
       ∃ f ∈ files, keepFile f = true ∧ d.id = docId corpus f.name) ∧
    ((download_corpus corpus files).1.map Document.id).Nodup := by
  rw [download_corpus_eq]
  constructor
  · intro d hd
    simp only [List.mem_map] at hd
    obtain ⟨f, hf, rfl⟩ := hd
    exact ⟨f, (List.mem_filter.mp hf).1, (List.mem_filter.mp hf).2, rfl⟩
  · rw [List.map_map]
    have hcomp : (Document.id ∘ mkDocument corpus)
        = (fun s => corpus ++ '_' :: s) ∘ (fun f => stripExtTokens f.name) :=
      rfl
    rw [hcomp, ← List.map_map]
    refine List.Nodup.map ?_ hNodup
    intro s1 s2 hs
    have h2 := List.append_cancel_left hs
    exact (List.cons_eq_cons.mp h2).2

/-- C3 (witness): the amended theorem on a concrete archive with two
distinct stripped filenames. -/
theorem C3_witness_distinct_ids :
    ((download_corpus ("c".data)
        [⟨"a.txt".data, some ("x".data)⟩,
         ⟨"b.txt".data, some ("y".data)⟩]).1.map Document.id).Nodup :=
  (C3_amended_ids_deterministic_distinct_under_nodup ("c".data)
      [⟨"a.txt".data, some ("x".data)⟩, ⟨"b.txt".data, some ("y".data)⟩]
      (by decide)).2

/-- C4 (counterexample): with download 5 s, upload 10 s and total 12 s,
the stats record stores indexing time -3, a negative value reported
as-is, not clamped to zero. -/
theorem C4_counterexample_negative_indexing_time_reported :
    (mkPerformanceStats 5 10 12 3 100).indexing_time = -3 ∧
    (mkPerformanceStats 5 10 12 3 100).indexing_time < 0 := by
  constructor
  · norm_num [mkPerformanceStats]
  · norm_num [mkPerformanceStats]

/-- C4 (amended): the reported indexing duration equals the total
duration minus the download and upload durations, stored as-is; it is
negative exactly when the total is smaller than download plus upload (no
clamping or flagging takes place). -/
theorem C4_amended_indexing_time_difference_unclamped
    (download_time upload_time total_time : ℚ)
    (total_count total_tokens : Nat) :
    (mkPerformanceStats download_time upload_time total_time total_count
        total_tokens).indexing_time
      = total_time - download_time - upload_time ∧
    ((mkPerformanceStats download_time upload_time total_time total_count
        total_tokens).indexing_time < 0
      ↔ total_time < download_time + upload_time) := by
  refine ⟨rfl, ?_⟩
  simp only [mkPerformanceStats]
  rw [sub_sub, sub_neg]

/-- C5: a pre-deadline tick converges exactly when the fetched snapshot
has a positive total with the indexed count equal to it, and a snapshot
with total zero keeps polling with a waiting-for-visibility report. -/
theorem C5_converged_iff_snapshot_complete (max_wait_time elapsed : ℤ)
    (queryResult : Option (List DocInfo))
    (h : ¬ max_wait_time < elapsed) :
    (∀ tc, pollTick max_wait_time elapsed queryResult = .converged tc ↔
       (tc = (check_corpus_indexed queryResult).2.2 ∧
        0 < (check_corpus_indexed queryResult).2.2 ∧
        (check_corpus_indexed queryResult).2.1
          = (check_corpus_indexed queryResult).2.2)) ∧
    ((check_corpus_indexed queryResult).2.2 = 0 →
       pollTick max_wait_time elapsed queryResult
         = .continuePolling .waitingForVisibility) := by
  rcases hcq : check_corpus_indexed queryResult with ⟨b, i, t⟩
  simp only [pollTick, h, if_false, hcq]
  constructor
  · intro tc
    by_cases hconv : i = t ∧ 0 < t
    · rw [if_pos hconv]
      constructor
      · intro he
        cases he
        exact ⟨rfl, hconv.2, hconv.1⟩
      · rintro ⟨rfl, _, _⟩
        rfl
    · rw [if_neg hconv]
      constructor
      · intro he
        by_cases hpos : 0 < t <;> simp [hpos] at he
      · rintro ⟨rfl, hpos, heq⟩
        exact absurd ⟨heq, hpos⟩ hconv
  · intro ht0
    subst ht0
    simp

/-- C5 (witness): a complete snapshot of three documents converges; a
failed or empty snapshot keeps polling in the waiting state. -/
theorem C5_witness_concrete_ticks :
    pollTick 600 10 (some (mkDocs 3 3)) = .converged 3 ∧
    pollTick 600 10 none = .continuePolling .waitingForVisibility := by
  constructor
  · exact ((C5_converged_iff_snapshot_complete 600 10 (some (mkDocs 3 3))
      (by decide)).1 3).mpr (by decide)
  · exact (C5_converged_iff_snapshot_complete 600 10 none (by decide)).2
      (by decide)

/-- C6: any tick past the deadline times out, and since each loop
iteration sleeps for the poll interval (tick k starts no earlier than
k times the interval), a run of B + 1 ticks with B times the interval
past the deadline always reaches a terminal outcome: the number of ticks
is bounded by maxWaitSec / pollIntervalSec plus one. -/
theorem C6_poll_loop_terminates_within_bound
    (max_wait_time check_interval : ℤ) (elapsed : Nat → ℤ)
    (query : Nat → Option (List DocInfo)) (B : Nat)
    (hElapsed : ∀ k : Nat, (k : ℤ) * check_interval ≤ elapsed k)
    (hB : max_wait_time < (B : ℤ) * check_interval) :
    pollRunAux max_wait_time elapsed query (B + 1) 0 ≠ .stillPolling ∧
    (∀ k, max_wait_time < elapsed k →
       pollTick max_wait_time (elapsed k) (query k) = .timedOut) := by
  have hEB : max_wait_time < elapsed B := lt_of_lt_of_le hB (hElapsed B)
  exact ⟨pollRunAux_terminates _ _ _ B hEB (B + 1) 0 (Nat.zero_le B)
      (by omega),
    fun k hk => pollTick_timeout _ _ _ hk⟩

/-- C6 (witness): the program configuration, max wait 600 and interval 5,
with a never-converging (always failing) snapshot sequence: the loop
terminates within 122 ticks and a late tick times out. -/
theorem C6_witness_concrete_bound :
    pollRunAux 600 (fun k => (k : ℤ) * 5) (fun _ => none) 122 0
      ≠ .stillPolling ∧
    pollTick 600 ((200 : ℤ) * 5) none = .timedOut := by
  have h := C6_poll_loop_terminates_within_bound 600 5
    (fun k => (k : ℤ) * 5) (fun _ => none) 121 (fun k => le_refl _)
    (by decide)
  exact ⟨h.1, h.2 200 (by decide)⟩

/-- C7 (counterexample): a converging run whose snapshot sequence dips
(5 of 10 indexed, then 3 of 10, then 10 of 10) converges on its third
tick while the reported progress fractions decrease from one half to
three tenths. -/
theorem C7_counterexample_progress_fraction_decreases :
    pollRunAux 600 (fun k => (k : ℤ) * 5) dipQuery 10 0
      = .converged 2 10 ∧
    pollReports 600 (fun k => (k : ℤ) * 5) dipQuery 10 0
      = [.progress 5 10, .progress 3 10] ∧
    ¬ (reportFrac (.progress 5 10) ≤ reportFrac (.progress 3 10)) := by
  refine ⟨by decide, by decide, by norm_num [reportFrac]⟩

/-- C7 (amended): the poller reports each snapshot's fraction as-is, so
the reported progress fractions are monotonically non-decreasing whenever
the underlying snapshot sequence has a fixed positive total and a
non-decreasing indexed count (the poller itself enforces no
monotonicity). -/
theorem C7_amended_monotone_snapshots_monotone_progress
    (max_wait_time : ℤ) (elapsed : Nat → ℤ) (f : Nat → Nat) (T fuel : Nat)
    (hf : ∀ k, f k ≤ T) (hT : 0 < T) (hmono : ∀ k, f k ≤ f (k + 1)) :
    List.Chain' (fun r r2 => reportFrac r ≤ reportFrac r2)
      (pollReports max_wait_time elapsed
        (fun j => some (mkDocs (f j) T)) fuel 0) :=
  pollReports_chain max_wait_time elapsed f T hf hT hmono fuel 0

/-- C7 (witness): the amended theorem on a concrete converging run whose
indexed counts rise 0, 1, 2, 3 out of 3. -/
theorem C7_witness_rising_run :
    List.Chain' (fun r r2 => reportFrac r ≤ reportFrac r2)
      (pollReports 600 (fun k => (k : ℤ) * 5)
        (fun j => some (mkDocs (min j 3) 3)) 5 0) :=
  C7_amended_monotone_snapshots_monotone_progress 600
    (fun k => (k : ℤ) * 5) (fun j => min j 3) 3 5
    (fun k => min_le_right k 3) (by decide)
    (fun k => min_le_min (Nat.le_succ k) (le_refl 3))

/-- C8 (counterexample): an included file that is empty after trimming is
skipped with NO warning recorded: the archive with one whitespace-only
txt file yields an empty catalog and zero warnings, contradicting the
claim that such files are skipped with a warning. -/
theorem C8_counterexample_empty_file_skipped_silently :
    includedFile ("e.txt".data) = true ∧
    pyTruthyStrip ("  \n".data) = false ∧
    download_corpus ("c".data) [⟨"e.txt".data, some ("  \n".data)⟩]
      = ([], 0) := by
  refine ⟨by decide, by decide, by decide⟩

/-- C8 (amended): extraction skips a file that fails to decode with
exactly one warning, skips an empty-after-trimming file silently, and
still processes the remaining files: the warning count is the number of
included raising files, the catalog size is the number of kept files, and
the two-document scenario with one decode failure yields catalog size 1
with one warning. -/
theorem C8_amended_decode_warned_empty_silent (corpus : List Char)
    (files : List AFile) :
    (download_corpus corpus files).2 = (files.filter warnFile).length ∧
    (download_corpus corpus files).1.length
      = (files.filter keepFile).length ∧
    (download_corpus ("c".data)
        [⟨"a.txt".data, none⟩, ⟨"b.txt".data, some ("hi".data)⟩]).1.length
      = 1 ∧
    (download_corpus ("c".data)
        [⟨"a.txt".data, none⟩, ⟨"b.txt".data, some ("hi".data)⟩]).2
      = 1 := by
  rw [download_corpus_eq]
  exact ⟨rfl, by simp, by decide, by decide⟩

/-- C9 (counterexample): with content ab and expected answers a then ab,
the answer ab occurs in the content and is recorded as matched, but the
annotated content holds no mark tag wrapped around the span ab: the
earlier highlight of a broke the later span. -/
theorem C9_counterexample_overlapping_answer_unmarked :
    isSubstr (toLowerStr ("ab".data)) (toLowerStr ("ab".data)) = true ∧
    ("ab".data) ∈ (processResult [("a".data), ("ab".data)] ("ab".data)).2 ∧
    isSubstr (markOpen ++ ("ab".data) ++ markClose)
      (processResult [("a".data), ("ab".data)] ("ab".data)).1 = false := by
  refine ⟨by decide, by decide, by decide⟩

/-- C9 (amended): an expected answer occurring case-insensitively in a
result content is always included in the found answers of that result;
and the highlighting step wraps the first occurrence of the matched span
in a mark tag whenever the answer still occurs in the progressively
annotated string it is applied to (an earlier highlight can break a later
overlapping span, in which case no marker is produced for it). -/
theorem C9_amended_match_recorded_highlight_wraps_first :
    (∀ (content : List Char) (answers : List (List Char)) (a : List Char),
       a ∈ answers → isSubstr (toLowerStr a) (toLowerStr content) = true →
       a ∈ (processResult answers content).2) ∧
    (∀ (current a : List Char),
       isSubstr (toLowerStr a) (toLowerStr current) = true →
       ∃ s, findSub (toLowerStr a) (toLowerStr current) = some s ∧
         highlight_answer_in_content current a
           = current.take s ++ markOpen ++ (current.drop s).take a.length
               ++ markClose ++ current.drop (s + a.length)) :=
  ⟨fun content answers a ha hocc =>
      annotate_foldl_mem content answers (content, []) a ha hocc,
   fun current a hocc => highlight_shape current a hocc⟩

/-- C9 (witness): the amended theorem on a concrete case-insensitive
match, the answer world inside the content Hello WORLD. -/
theorem C9_witness_concrete_match :
    ("world".data) ∈ (processResult [("world".data)] ("Hello WORLD".data)).2 ∧
    ∃ s, findSub (toLowerStr ("world".data))
          (toLowerStr ("Hello WORLD".data)) = some s ∧
      highlight_answer_in_content ("Hello WORLD".data) ("world".data)
        = ("Hello WORLD".data).take s ++ markOpen
            ++ (("Hello WORLD".data).drop s).take ("world".data).length
            ++ markClose
            ++ ("Hello WORLD".data).drop (s + ("world".data).length) :=
  ⟨C9_amended_match_recorded_highlight_wraps_first.1 ("Hello WORLD".data)
      [("world".data)] ("world".data) (by decide) (by decide),
   C9_amended_match_recorded_highlight_wraps_first.2 ("Hello WORLD".data)
      ("world".data) (by decide)⟩

/-- C10: check_corpus_indexed is total at its public interface: a failing
status query yields (false, 0, 0); in every return the indexed count is
at most the total count, and the boolean is true exactly when the total
count is positive. -/
theorem C10_check_corpus_indexed_total_and_consistent
    (queryResult : Option (List DocInfo)) :
    check_corpus_indexed none = (false, 0, 0) ∧
    (check_corpus_indexed queryResult).2.1
      ≤ (check_corpus_indexed queryResult).2.2 ∧
    ((check_corpus_indexed queryResult).1 = true
      ↔ 0 < (check_corpus_indexed queryResult).2.2) := by
  refine ⟨rfl, ?_, ?_⟩
  · cases queryResult with
    | none => simp [check_corpus_indexed]
    | some docs =>
      simpa [check_corpus_indexed] using List.length_filter_le _ docs
  · cases queryResult with
    | none => simp [check_corpus_indexed]
    | some docs => simp [check_corpus_indexed]

end ZeroEntropyDemo
